import Mathlib

/-!
Shallow embedding of the memomaker capture-and-processing pipeline
(src/memomaker-ui.py) and proofs about its specification.

Python strings are modelled as `List Char` (a Python `str` is a sequence of
code points, `len` counts code points, slicing and `replace` work on code
points).  File-system and network effects are modelled by explicit oracle
records (`RecorderEnv`, `GenEnv`): each fallible external call is a field
saying whether it succeeds and what it returns, and the embedded functions
return the outcome together with the externally visible events (log lines,
files written, requests issued).
-/

/-- Whitespace test: the ASCII whitespace characters removed by Python's
`str.strip()` (Python also strips further Unicode whitespace; the inputs in
this development are ASCII, where the two notions agree). -/
def pyIsSpace (c : Char) : Bool :=
  c = ' ' || c = '\t' || c = '\n' || c = '\r' || c = '\x0b' || c = '\x0c'

/-- Python `str.strip()`: drop leading and trailing whitespace. -/
def pyStrip (l : List Char) : List Char :=
  ((l.dropWhile pyIsSpace).reverse.dropWhile pyIsSpace).reverse

/-- Worker for `pyReplace`, structurally recursive on a fuel argument so that
it evaluates by plain reduction; every step consumes at least one character,
so fuel `s.length` always suffices. -/
def pyReplaceAux (p r : List Char) : Nat → List Char → List Char
  | _, [] => []
  | 0, s => s
  | fuel + 1, c :: cs =>
    if p ≠ [] ∧ p.isPrefixOf (c :: cs) then
      r ++ pyReplaceAux p r fuel (cs.drop (p.length - 1))
    else
      c :: pyReplaceAux p r fuel cs

/-- Python `str.replace(p, r)` for a non-empty pattern `p`: replace the
leftmost occurrence of `p`, continue scanning after the replacement
(non-overlapping, the result is not re-scanned). -/
def pyReplace (p r : List Char) (s : List Char) : List Char :=
  pyReplaceAux p r s.length s

/-- Boolean containment of a contiguous subsequence (`p in s` for Python
strings). -/
def containsSeq (p : List Char) : List Char → Bool
  | [] => p.isEmpty
  | c :: cs => p.isPrefixOf (c :: cs) || containsSeq p cs

-- ============================================================================
-- Constants (lines 36-45 of src/memomaker-ui.py)
-- ============================================================================

/-- Constant `INLINE_THRESHOLD = 20 * 1024 * 1024` (line 36). -/
def INLINE_THRESHOLD : Nat := 20 * 1024 * 1024

/-- Constant `MAX_FILE_SIZE = 100 * 1024 * 1024` (line 37). -/
def MAX_FILE_SIZE : Nat := 100 * 1024 * 1024

/-- Constant `MIN_FILE_SIZE = 1024` (line 38). -/
def MIN_FILE_SIZE : Nat := 1024

/-- Constant `VALID_AUDIO_EXTENSIONS` (line 41). -/
def VALID_AUDIO_EXTENSIONS : List String :=
  [".mp3", ".wav", ".m4a", ".ogg", ".flac", ".aac"]

/-- Constant `VALID_MIME_TYPES` (lines 42-45). -/
def VALID_MIME_TYPES : List String :=
  ["audio/mpeg", "audio/wav", "audio/x-wav", "audio/mp4", "audio/m4a",
   "audio/ogg", "audio/flac", "audio/aac", "audio/x-m4a"]

-- ============================================================================
-- Validator (lines 78-125)
-- ============================================================================

/-- The externally observable facts about a candidate audio file that
`validate_audio_file` consults: whether the path is non-empty and exists,
its (lower-cased) extension, whether `os.path.getsize` succeeds and the size
it reports, and whether the first 1 KiB can be read. -/
structure FileState where
  present : Bool
  ext : String
  statOk : Bool
  size : Nat
  readableHeader : Bool
deriving DecidableEq, Repr

/-- Models the external `mimetypes.guess_type` (line 99) on the extensions the
program accepts, following CPython's built-in table: `.mp3 ↦ audio/mpeg`,
`.wav ↦ audio/x-wav`, `.aac ↦ audio/aac`, and no guess for `.m4a`, `.ogg`,
`.flac`.  Extensions outside the allowed set are rejected before the MIME
check is reached, so their value is irrelevant and set to `none`. -/
def guess_mime (ext : String) : Option String :=
  if ext = ".mp3" then some "audio/mpeg"
  else if ext = ".wav" then some "audio/x-wav"
  else if ext = ".aac" then some "audio/aac"
  else none

/-- The distinct return sites of `validate_audio_file` (lines 78-111). -/
inductive AudioCheck
  | notFound
  | unsupportedFormat
  | sizeUnreadable
  | tooSmall
  | tooLarge
  | invalidMime
  | unreadable
  | pass
deriving DecidableEq, Repr

/-- Function `validate_audio_file` (lines 78-111): existence, extension, size bounds,
best-effort MIME guess, readability of the first 1 KiB, in that order. -/
def validate_audio_file (f : FileState) : AudioCheck :=
  if !f.present then .notFound
  else if !(VALID_AUDIO_EXTENSIONS.contains f.ext) then .unsupportedFormat
  else if !f.statOk then .sizeUnreadable
  else if f.size < MIN_FILE_SIZE then .tooSmall
  else if f.size > MAX_FILE_SIZE then .tooLarge
  else
    match guess_mime f.ext with
    | some m =>
      if !(VALID_MIME_TYPES.contains m) then .invalidMime
      else if !f.readableHeader then .unreadable
      else .pass
    | none =>
      if !f.readableHeader then .unreadable
      else .pass

/-- The distinct return sites of `validate_prompt_input` (lines 113-125). -/
inductive PromptCheck
  | empty
  | tooShort
  | tooLong
  | pass
deriving DecidableEq, Repr

/-- Function `validate_prompt_input` (lines 113-125): empty after strip, then trimmed
length < 10, then raw length > 5000. -/
def validate_prompt_input (s : List Char) : PromptCheck :=
  if pyStrip s = [] then .empty
  else if (pyStrip s).length < 10 then .tooShort
  else if s.length > 5000 then .tooLong
  else .pass

-- ============================================================================
-- Transfer selector (condition at lines 1006 and 1139)
-- ============================================================================

/-- The three values of the method radio buttons / `--method` choices. -/
inductive Method
  | auto
  | inl
  | upload
deriving DecidableEq, Repr

/-- The two transfer outcomes. -/
inductive Transfer
  | inl
  | upload
deriving DecidableEq, Repr

/-- The transfer-method decision, the condition
`method == "upload" or (method == "auto" and file_size >= INLINE_THRESHOLD)`
at lines 1006 and 1139; every other case takes the inline branch. -/
def select_method (m : Method) (size : Nat) : Transfer :=
  if m = Method.upload ∨ (m = Method.auto ∧ size ≥ INLINE_THRESHOLD) then
    .upload
  else
    .inl

-- ============================================================================
-- Session naming (lines 49, 226-228, 288, 1034-1040, 1059-1065)
-- ============================================================================

/-- Constant `RECORDINGS_FOLDER` (line 49), modelled as a path prefix. -/
def RECORDINGS_FOLDER : String := "recordings/"

/-- The recording path set at capture start (line 228):
`{session_timestamp}-recording.mp3` inside the recordings folder. -/
def recordingName (ts : String) : String :=
  RECORDINGS_FOLDER ++ ts ++ "-recording.mp3"

/-- The uncompressed fallback path (line 288):
`{session_timestamp}-recording.wav`. -/
def wavFallbackName (ts : String) : String :=
  RECORDINGS_FOLDER ++ ts ++ "-recording.wav"

/-- The temporary WAV path set at capture start (line 227). -/
def tempWavName (ts : String) : String :=
  RECORDINGS_FOLDER ++ "temp_" ++ ts ++ ".wav"

/-- Transcript file name (lines 1036/1040/1156): `{ts}-transcript.txt`. -/
def transcriptName (ts : String) : String :=
  RECORDINGS_FOLDER ++ ts ++ "-transcript.txt"

/-- Memo file name (lines 1061/1065/1157): `{ts}-memo.md`. -/
def memoName (ts : String) : String :=
  RECORDINGS_FOLDER ++ ts ++ "-memo.md"

-- ============================================================================
-- Recorder (class AudioRecorder, lines 207-328)
-- ============================================================================

/-- The fields of `AudioRecorder` that the claims observe.  A captured chunk
is a list of 16-bit samples, modelled as integers. -/
structure RecorderState where
  is_recording : Bool
  audio_data : List (List Int)
  sample_rate : Nat
  channels : Nat
  session_timestamp : Option String
  audio_path : Option String
  temp_wav_path : Option String
  hasCallback : Bool
deriving DecidableEq, Repr

/-- Constructor `AudioRecorder.__init__` (lines 208-217): idle, empty buffer, 22050 Hz
mono, no session. -/
def initRecorder (hasCallback : Bool) : RecorderState :=
  ⟨false, [], 22050, 1, none, none, none, hasCallback⟩

/-- Outcomes of the external collaborators `save_recording` depends on:
whether `lameenc` imported (line 18-22), whether `encode_to_mp3` succeeds
(encoder and file write, lines 298-328), and whether `wavfile.write`
succeeds (line 289). -/
structure RecorderEnv where
  lameAvailable : Bool
  mp3EncodeOk : Bool
  wavWriteOk : Bool
deriving DecidableEq, Repr

/-- An encoding attempt with its parameters: MP3 via `lameenc` with bit rate,
quality tier and input sample rate (lines 311-314), or WAV at a sample rate
(line 289). -/
inductive EncodeAttempt
  | mp3 (bitrate quality sampleRate : Nat)
  | wav (sampleRate : Nat)
deriving DecidableEq, Repr

/-- What one call to `save_recording` returns and does. -/
structure SaveResult where
  returned : Option String
  attempts : List EncodeAttempt
  written : List String
deriving DecidableEq, Repr

/-- Method `AudioRecorder.save_recording` (lines 275-296): nothing captured returns
`None`; otherwise try MP3 (only if `lameenc` is available), falling back to a
WAV container at the recorder's sample rate; any write failure is caught and
yields `None`.  The path fields are set by `start_recording` on every
reachable call. -/
def save_recording (env : RecorderEnv) (st : RecorderState) : SaveResult :=
  match st.audio_data with
  | [] => ⟨none, [], []⟩
  | _ :: _ =>
    let mp3path := st.audio_path.getD ""
    let wavPath := wavFallbackName (st.session_timestamp.getD "")
    if env.lameAvailable && env.mp3EncodeOk then
      ⟨some mp3path, [.mp3 128 2 st.sample_rate], [mp3path]⟩
    else if env.lameAvailable then
      if env.wavWriteOk then
        ⟨some wavPath, [.mp3 128 2 st.sample_rate, .wav st.sample_rate], [wavPath]⟩
      else
        ⟨none, [.mp3 128 2 st.sample_rate, .wav st.sample_rate], []⟩
    else
      if env.wavWriteOk then
        ⟨some wavPath, [.wav st.sample_rate], [wavPath]⟩
      else
        ⟨none, [.wav st.sample_rate], []⟩

/-- Method `AudioRecorder.start_recording` (lines 219-235): returns `False` when
already recording; otherwise sets the session timestamp (the current time
`now`, format `yymmdd-HHMMSS`), derives both output paths from it, clears the
buffer and launches the capture loop. -/
def start_recording (now : String) (st : RecorderState) : Bool × RecorderState :=
  if st.is_recording then
    (false, st)
  else
    (true, { st with
      is_recording := true
      session_timestamp := some now
      temp_wav_path := some (tempWavName now)
      audio_path := some (recordingName now)
      audio_data := [] })

/-- What one call to `stop_recording` returns and does. -/
structure StopResult where
  returned : Option String
  state : RecorderState
  joined : Bool
  callbackInvoked : Option String
  attempts : List EncodeAttempt
  written : List String
deriving DecidableEq, Repr

/-- Method `AudioRecorder.stop_recording` (lines 237-252): `None` immediately when
not recording; otherwise clear the flag, join the capture thread, save, and
invoke the callback with the saved path when one is registered and the save
succeeded. -/
def stop_recording (env : RecorderEnv) (st : RecorderState) : StopResult :=
  if !st.is_recording then
    ⟨none, st, false, none, [], []⟩
  else
    let st' := { st with is_recording := false }
    let sv := save_recording env st'
    ⟨sv.returned, st', true,
     if st.hasCallback then sv.returned else none,
     sv.attempts, sv.written⟩

-- ============================================================================
-- Memo sanitization (line 1052 / line 1164)
-- ============================================================================

/-- The backtick character, U+0060. -/
def tick : Char := Char.ofNat 96

/-- A bare code fence, three backticks. -/
def fence : List Char := [tick, tick, tick]

/-- The marker stripped first at line 1052: fence followed by `markdown`. -/
def fenceMarkdown : List Char := fence ++ "markdown".toList

/-- The marker stripped second at line 1052: fence followed by `md`. -/
def fenceMd : List Char := fence ++ "md".toList

/-- The sanitization at line 1052 (and identically line 1164):
`.replace("\x7b3 backticks\x7dmarkdown", "").replace("...md", "")
.replace("three backticks", "").strip()`. -/
def pySanitize (s : List Char) : List Char :=
  pyStrip (pyReplace fence [] (pyReplace fenceMd [] (pyReplace fenceMarkdown [] s)))

-- ============================================================================
-- Pipeline orchestrator (process_audio lines 945-992,
-- process_thread lines 994-1102)
-- ============================================================================

/-- Outcomes of the external calls one pipeline run makes, each `Except`
carrying `str(e)` of the exception on failure: `genai.upload_file`
(line 1009), the transcript `generate_content` (1011/1019), the transcript
file write (1042), the memo `generate_content` (1050), the memo file write
(1067). -/
structure GenEnv where
  uploadResult : Except String Unit
  transcriptResult : Except String (List Char)
  transcriptWrite : Except String Unit
  memoResult : Except String (List Char)
  memoWrite : Except String Unit
deriving Repr

/-- The log lines and status updates a run emits, in order.  `usage` models a
`format_api_usage` block (lines 127-146), which carries the operation name,
the success flag, and — verbatim — the error text when one is given. -/
inductive LogEvent
  | methodInfo (m : Method) (size : Nat)
  | usingUpload
  | usingInline
  | transcriptDone
  | usage (operation : String) (success : Bool) (error : Option String)
  | transcriptSaved (path : String)
  | memoSaved (path : String)
  | totalTime
  | openingMemo (path : String)
  | errorOccurred (msg : String)
  | startedLog
  | errorNoFile
  | errorInvalidFile
  | errorInvalidTranscriptPrompt
  | errorInvalidMemoPrompt
deriving DecidableEq, Repr

/-- Terminal run states. -/
inductive RunStatus
  | done
  | failed
deriving DecidableEq, Repr

/-- Everything externally visible about one finished `process_thread` run:
terminal status, the processing flag after the `finally` block (line 1098),
the log, the files written as (path, content) pairs, how many transcript and
memo requests were issued, and the MIME type declared for an inline payload. -/
structure RunResult where
  status : RunStatus
  processing : Bool
  log : List LogEvent
  written : List (String × List Char)
  transcriptCalls : Nat
  memoCalls : Nat
  declaredMime : Option String
deriving DecidableEq, Repr

/-- The two log lines the `except` handler emits (lines 1089-1096): the
captured message verbatim, then a failed usage summary carrying it. -/
def failTail (msg : String) : List LogEvent :=
  [.errorOccurred msg, .usage "Failed Processing" false (some msg)]

/-- The run from the point where the transcript text has been obtained
(line 1025 onward): log success and usage, persist the transcript, request
the memo, sanitize it (line 1052), persist it, finish.  Any failure falls to
the handler at line 1087. -/
def afterTranscript (env : GenEnv) (sessionTs : Option String) (now : String)
    (log : List LogEvent) (mime : Option String) (transcript : List Char) :
    RunResult :=
  let log := log ++ [.transcriptDone, .usage "Transcript Generation" true none]
  let ts := sessionTs.getD now
  let tpath := transcriptName ts
  match env.transcriptWrite with
  | .error msg => ⟨.failed, false, log ++ failTail msg, [], 1, 0, mime⟩
  | .ok () =>
    let log := log ++ [.transcriptSaved tpath]
    let written := [(tpath, transcript)]
    match env.memoResult with
    | .error msg => ⟨.failed, false, log ++ failTail msg, written, 1, 1, mime⟩
    | .ok memoText =>
      let content := pySanitize memoText
      let log := log ++ [.usage "Memo Generation" true none]
      let mpath := memoName ts
      match env.memoWrite with
      | .error msg => ⟨.failed, false, log ++ failTail msg, written, 1, 1, mime⟩
      | .ok () =>
        ⟨.done, false,
         log ++ [.memoSaved mpath, .usage "Total Processing" true none,
                 .totalTime, .openingMemo mpath],
         written ++ [(mpath, content)], 1, 1, mime⟩

/-- Method `GeminiAudioApp.process_thread` (lines 994-1102).  `_ext` is the selected
file's extension; the inline branch declares `"audio/mp3"` (line 1021)
without consulting it.  `sessionTs` is `current_session_timestamp` when a
capture session exists, `now` the fallback timestamp taken at persist time
(lines 1039/1064). -/
def process_thread (env : GenEnv) (m : Method) (size : Nat) (_ext : String)
    (sessionTs : Option String) (now : String) : RunResult :=
  let log0 : List LogEvent := [.methodInfo m size]
  match select_method m size with
  | .upload =>
    let log1 := log0 ++ [.usingUpload]
    match env.uploadResult with
    | .error msg => ⟨.failed, false, log1 ++ failTail msg, [], 0, 0, none⟩
    | .ok () =>
      match env.transcriptResult with
      | .error msg => ⟨.failed, false, log1 ++ failTail msg, [], 1, 0, none⟩
      | .ok t => afterTranscript env sessionTs now log1 none t
  | .inl =>
    let log1 := log0 ++ [.usingInline]
    let mime := some "audio/mp3"
    match env.transcriptResult with
    | .error msg => ⟨.failed, false, log1 ++ failTail msg, [], 1, 0, mime⟩
    | .ok t => afterTranscript env sessionTs now log1 mime t

/-- The fields of `GeminiAudioApp` that `process_audio` consults. -/
structure UiState where
  processing : Bool
  audio_file_path : Option FileState
  log : List LogEvent
deriving DecidableEq, Repr

/-- What a call to `process_audio` decides. -/
inductive TriggerOutcome
  | busy
  | noFile
  | invalidFile
  | invalidTranscriptPrompt
  | invalidMemoPrompt
  | started (m : Method) (tp mp : List Char)
deriving DecidableEq, Repr

/-- Method `GeminiAudioApp.process_audio` (lines 945-992): the single-flight guard
(`if self.processing: return`, lines 946-947, a bare return with no log
line), then re-validation of the file and both prompts, then the flag is set
and the worker thread started.  `tp`/`mp` are the prompt texts after the
empty-text default fallback at lines 963-964. -/
def process_audio (st : UiState) (tp mp : List Char) (m : Method) :
    UiState × TriggerOutcome :=
  if st.processing then
    (st, .busy)
  else
    match st.audio_file_path with
    | none => ({ st with log := st.log ++ [.errorNoFile] }, .noFile)
    | some f =>
      if validate_audio_file f ≠ .pass then
        ({ st with log := st.log ++ [.errorInvalidFile] }, .invalidFile)
      else if validate_prompt_input tp ≠ .pass then
        ({ st with log := st.log ++ [.errorInvalidTranscriptPrompt] },
         .invalidTranscriptPrompt)
      else if validate_prompt_input mp ≠ .pass then
        ({ st with log := st.log ++ [.errorInvalidMemoPrompt] },
         .invalidMemoPrompt)
      else
        ({ st with processing := true, log := st.log ++ [.startedLog] },
         .started m tp mp)

-- ============================================================================
-- Single-flight trace model
-- ============================================================================

/-- The processing flag together with the number of non-terminal runs. -/
structure FlightState where
  processing : Bool
  activeRuns : Nat
deriving DecidableEq, Repr

/-- The application-level events that touch the guard: a trigger while busy
(the guard branch of `process_audio`, which changes nothing), a trigger while
idle (line 980 sets the flag and starts one run), and a run reaching a
terminal state (the `finally` block, line 1098, clears the flag). -/
inductive FlightStep : FlightState → FlightState → Prop
  | triggerBusy (s : FlightState) : s.processing = true → FlightStep s s
  | triggerIdle (n : Nat) : FlightStep ⟨false, n⟩ ⟨true, n + 1⟩
  | finish (n : Nat) : FlightStep ⟨true, n⟩ ⟨false, n - 1⟩

/-- States reachable from the initial state (no run, flag clear,
lines 343). -/
inductive FlightReachable : FlightState → Prop
  | init : FlightReachable ⟨false, 0⟩
  | step {s t : FlightState} :
      FlightReachable s → FlightStep s t → FlightReachable t

-- ============================================================================
-- Helper lemmas
-- ============================================================================

/-- The fields of `afterTranscript` that do not depend on which branch is
taken: the declared MIME type is the one fixed before the transcript call,
the processing flag ends cleared, and exactly one transcript request was
made. -/
theorem afterTranscript_fields (env : GenEnv) (sessionTs : Option String)
    (now : String) (log : List LogEvent) (mime : Option String)
    (t : List Char) :
    (afterTranscript env sessionTs now log mime t).declaredMime = mime ∧
    (afterTranscript env sessionTs now log mime t).processing = false ∧
    (afterTranscript env sessionTs now log mime t).transcriptCalls = 1 := by
  unfold afterTranscript
  cases env.transcriptWrite with
  | error m1 => exact ⟨rfl, rfl, rfl⟩
  | ok u =>
    cases u
    cases env.memoResult with
    | error m2 => exact ⟨rfl, rfl, rfl⟩
    | ok mt =>
      cases env.memoWrite with
      | error m3 => exact ⟨rfl, rfl, rfl⟩
      | ok u2 => cases u2; exact ⟨rfl, rfl, rfl⟩

/-- Every run ends with the processing flag cleared (the `finally` block at
line 1098). -/
theorem process_thread_clears_flag (env : GenEnv) (m : Method) (size : Nat)
    (ext : String) (sess : Option String) (now : String) :
    (process_thread env m size ext sess now).processing = false := by
  unfold process_thread
  cases select_method m size with
  | upload =>
    cases env.uploadResult with
    | error m1 => rfl
    | ok u =>
      cases u
      cases env.transcriptResult with
      | error m2 => rfl
      | ok t => exact (afterTranscript_fields env sess now _ none t).2.1
  | inl =>
    cases env.transcriptResult with
    | error m2 => rfl
    | ok t =>
      exact (afterTranscript_fields env sess now _ (some "audio/mp3") t).2.1

/-- The guard invariant of the trace model: the number of non-terminal runs
is 1 exactly while the flag is set, 0 otherwise. -/
theorem flight_activeRuns_eq {s : FlightState} (h : FlightReachable s) :
    s.activeRuns = if s.processing then 1 else 0 := by
  induction h with
  | init => rfl
  | step hr hstep ih =>
    cases hstep with
    | triggerBusy s hp => exact ih
    | triggerIdle n => simp at ih ⊢; omega
    | finish n => simp at ih ⊢; omega

-- ============================================================================
-- C2: transfer-method decision
-- ============================================================================

/-- C2: for every method hint and payload size, the transfer-method decision
chooses upload for hint `upload`, inline for hint `inline`, and for hint
`auto` chooses upload iff the size is at least 20 MiB — with both sides of
the boundary checked (20 MiB uploads, 20 MiB − 1 byte stays inline).  The
decision is a pure function of (hint, size). -/
theorem C2_select_method_decision (s : Nat) :
    select_method Method.upload s = Transfer.upload ∧
    select_method Method.inl s = Transfer.inl ∧
    (select_method Method.auto s = Transfer.upload ↔ 20 * 1024 * 1024 ≤ s) ∧
    select_method Method.auto (20 * 1024 * 1024) = Transfer.upload ∧
    select_method Method.auto (20 * 1024 * 1024 - 1) = Transfer.inl := by
  refine ⟨by simp [select_method], by simp [select_method], ?_, by decide,
    by decide⟩
  unfold select_method
  by_cases hs : INLINE_THRESHOLD ≤ s
  · rw [if_pos (Or.inr ⟨rfl, hs⟩)]
    simpa [INLINE_THRESHOLD] using hs
  · rw [if_neg ?_]
    · constructor
      · intro hc; exact absurd hc (by decide)
      · intro hle; exact absurd hle (by simpa [INLINE_THRESHOLD] using hs)
    · rintro (h | ⟨-, h2⟩)
      · exact absurd h (by decide)
      · exact hs h2

-- ============================================================================
-- C9: inline requests always declare audio/mp3
-- ============================================================================

/-- C9: every pipeline run that resolves to the inline transfer method
declares the content type `audio/mp3` (line 1021), whatever the selected
file's extension is — including `.wav`, `.m4a`, `.ogg`, `.flac`, `.aac`. -/
theorem C9_inline_declares_mp3 (env : GenEnv) (m : Method) (size : Nat)
    (ext : String) (sess : Option String) (now : String)
    (h : select_method m size = Transfer.inl) :
    (process_thread env m size ext sess now).declaredMime = some "audio/mp3" := by
  unfold process_thread
  rw [h]
  cases env.transcriptResult with
  | error m2 => rfl
  | ok t => exact (afterTranscript_fields env sess now _ (some "audio/mp3") t).1

/-- Witness for C9: a 5000-byte `.wav` file on method `auto` resolves to
inline and is declared `audio/mp3`. -/
theorem C9_witness :
    select_method Method.auto 5000 = Transfer.inl ∧
    (process_thread ⟨.ok (), .ok "hi".toList, .ok (), .ok "m".toList, .ok ()⟩
        Method.auto 5000 ".wav" none "250101-120000").declaredMime =
      some "audio/mp3" :=
  ⟨by decide,
   C9_inline_declares_mp3 ⟨.ok (), .ok "hi".toList, .ok (), .ok "m".toList,
     .ok ()⟩ Method.auto 5000 ".wav" none "250101-120000" (by decide)⟩

-- ============================================================================
-- C10: stopping an idle recorder is a pure no-op
-- ============================================================================

/-- C10: calling stop on a recorder that is not recording returns `None`
immediately: no join, no encoding attempt, no file written, no callback, and
the recorder state — buffer, session timestamp, paths, flag — is exactly
unchanged (lines 239-240). -/
theorem C10_stop_idle_noop (env : RecorderEnv) (st : RecorderState)
    (h : st.is_recording = false) :
    stop_recording env st = ⟨none, st, false, none, [], []⟩ := by
  simp [stop_recording, h]

/-- Witness for C10 at a freshly constructed recorder. -/
theorem C10_witness :
    (initRecorder true).is_recording = false ∧
    stop_recording ⟨true, true, true⟩ (initRecorder true) =
      ⟨none, initRecorder true, false, none, [], []⟩ :=
  ⟨rfl, C10_stop_idle_noop ⟨true, true, true⟩ (initRecorder true) rfl⟩

-- ============================================================================
-- C3: audio size bounds
-- ============================================================================

/-- C3: for every existing file with an allowed extension (and a readable
size), validation fails `tooSmall` below 1024 bytes and `tooLarge` above
100 MiB; for every size in [1024, 100 MiB] with a readable first 1 KiB it
passes. -/
theorem C3_validate_audio_size_bounds (f : FileState) (hp : f.present = true)
    (he : f.ext ∈ VALID_AUDIO_EXTENSIONS) (hs : f.statOk = true) :
    (f.size < 1024 → validate_audio_file f = AudioCheck.tooSmall) ∧
    (f.size > 100 * 1024 * 1024 → validate_audio_file f = AudioCheck.tooLarge) ∧
    (1024 ≤ f.size → f.size ≤ 100 * 1024 * 1024 → f.readableHeader = true →
      validate_audio_file f = AudioCheck.pass) := by
  simp only [VALID_AUDIO_EXTENSIONS, List.mem_cons, List.not_mem_nil,
    or_false] at he
  refine ⟨?_, ?_, ?_⟩
  · intro hlt
    rcases he with h | h | h | h | h | h <;>
      simp +decide [validate_audio_file, VALID_AUDIO_EXTENSIONS, MIN_FILE_SIZE,
        hp, hs, h, hlt]
  · intro hgt
    have hns : ¬ (f.size < 1024) := by omega
    rcases he with h | h | h | h | h | h <;>
      simp +decide [validate_audio_file, VALID_AUDIO_EXTENSIONS, MIN_FILE_SIZE,
        MAX_FILE_SIZE, hp, hs, h, hns, hgt]
  · intro h1 h2 hr
    have hns : ¬ (f.size < 1024) := by omega
    have hnl : ¬ (f.size > 100 * 1024 * 1024) := by omega
    rcases he with h | h | h | h | h | h <;>
      simp +decide [validate_audio_file, VALID_AUDIO_EXTENSIONS, MIN_FILE_SIZE,
        MAX_FILE_SIZE, VALID_MIME_TYPES, guess_mime, hp, hs, h, hr, hns, hnl]

/-- Witness for C3: a 2048-byte readable `.mp3` file passes validation. -/
theorem C3_witness :
    (⟨true, ".mp3", true, 2048, true⟩ : FileState).present = true ∧
    (⟨true, ".mp3", true, 2048, true⟩ : FileState).ext ∈
      VALID_AUDIO_EXTENSIONS ∧
    validate_audio_file ⟨true, ".mp3", true, 2048, true⟩ = AudioCheck.pass :=
  ⟨rfl, by decide,
   (C3_validate_audio_size_bounds ⟨true, ".mp3", true, 2048, true⟩ rfl
     (by decide) rfl).2.2 (by decide) (by decide) rfl⟩

-- ============================================================================
-- C4: prompt validation
-- ============================================================================

/-- C4 (amended): `validate_prompt_input` passes exactly when the trimmed
length is at least 10 AND the raw length is at most 5000; it fails `empty`
when blank after trimming, `tooShort` when non-blank with trimmed length
below 10, and `tooLong` when the trimmed length is at least 10 but the raw
length exceeds 5000.  (The original claim's pass condition omitted the raw
length bound.) -/
theorem C4_validate_prompt_bounds (s : List Char) :
    (validate_prompt_input s = PromptCheck.pass ↔
       10 ≤ (pyStrip s).length ∧ s.length ≤ 5000) ∧
    (pyStrip s = [] → validate_prompt_input s = PromptCheck.empty) ∧
    (pyStrip s ≠ [] → (pyStrip s).length < 10 →
       validate_prompt_input s = PromptCheck.tooShort) ∧
    (10 ≤ (pyStrip s).length → 5000 < s.length →
       validate_prompt_input s = PromptCheck.tooLong) := by
  unfold validate_prompt_input
  split_ifs with h1 h2 h3
  · refine ⟨?_, fun _ => rfl, ?_, ?_⟩
    · constructor
      · intro hc; exact absurd hc (by decide)
      · rintro ⟨hlen, -⟩; rw [h1] at hlen; simp at hlen
    · intro hne _; exact absurd h1 hne
    · intro hlen _; rw [h1] at hlen; simp at hlen
  · refine ⟨?_, fun he => absurd he h1, fun _ _ => rfl, ?_⟩
    · constructor
      · intro hc; exact absurd hc (by decide)
      · rintro ⟨hlen, -⟩; omega
    · intro hlen _; omega
  · refine ⟨?_, fun he => absurd he h1, fun _ hl => absurd hl (by omega),
      fun _ _ => rfl⟩
    constructor
    · intro hc; exact absurd hc (by decide)
    · rintro ⟨-, hle⟩; omega
  · refine ⟨?_, fun he => absurd he h1, fun _ hl => absurd hl (by omega),
      fun _ hgt => absurd hgt (by omega)⟩
    constructor
    · intro _; exact ⟨by omega, by omega⟩
    · intro _; rfl

/-- A prompt whose trimmed length (10) is inside [10, 5000] but whose raw
length is 5001: ten letters followed by 4991 spaces. -/
def paddedPrompt : List Char :=
  List.replicate 10 'a' ++ List.replicate 4991 ' '

/-- Dropping while `p` holds skips a replicated block of characters
satisfying `p`. -/
theorem dropWhile_replicate_append (p : Char → Bool) (c : Char)
    (hc : p c = true) :
    ∀ (n : Nat) (l : List Char),
      (List.replicate n c ++ l).dropWhile p = l.dropWhile p := by
  intro n
  induction n with
  | zero => intro l; rfl
  | succ k ih =>
    intro l
    simp only [List.replicate_succ, List.cons_append, List.dropWhile_cons, hc]
    exact ih l

/-- Dropping while `p` holds stops at a head that fails `p`. -/
theorem dropWhile_cons_false (p : Char → Bool) (c : Char) (l : List Char)
    (hc : p c = false) : (c :: l).dropWhile p = c :: l := by
  simp [List.dropWhile_cons, hc]

/-- Stripping `paddedPrompt` removes exactly the 4991 trailing spaces. -/
theorem pyStrip_paddedPrompt : pyStrip paddedPrompt = List.replicate 10 'a' := by
  unfold pyStrip
  rw [show paddedPrompt =
        'a' :: (List.replicate 9 'a' ++ List.replicate 4991 ' ') from rfl]
  rw [dropWhile_cons_false _ _ _ (by decide)]
  rw [show ('a' :: (List.replicate 9 'a' ++ List.replicate 4991 ' ')) =
        List.replicate 10 'a' ++ List.replicate 4991 ' ' from rfl]
  rw [List.reverse_append, List.reverse_replicate, List.reverse_replicate]
  rw [dropWhile_replicate_append _ _ (by decide)]
  rw [show (List.replicate 10 'a' : List Char) = 'a' :: List.replicate 9 'a'
      from rfl]
  rw [dropWhile_cons_false _ _ _ (by decide)]
  rw [show ('a' :: List.replicate 9 'a') = List.replicate 10 'a' from rfl]
  exact List.reverse_replicate 10 'a'

/-- Counterexample for C4 as stated: `paddedPrompt` has trimmed length in
[10, 5000], yet `validate_prompt_input` does not pass — it fails the raw
length check (line 122 of the source) and returns the too-long error. -/
theorem C4_counterexample :
    10 ≤ (pyStrip paddedPrompt).length ∧
    (pyStrip paddedPrompt).length ≤ 5000 ∧
    validate_prompt_input paddedPrompt ≠ PromptCheck.pass ∧
    validate_prompt_input paddedPrompt = PromptCheck.tooLong := by
  have h1 := pyStrip_paddedPrompt
  have hlen : paddedPrompt.length = 5001 := by
    unfold paddedPrompt
    rw [List.length_append, List.length_replicate, List.length_replicate]
  have hv : validate_prompt_input paddedPrompt = PromptCheck.tooLong := by
    unfold validate_prompt_input
    rw [h1, hlen]
    decide
  refine ⟨by rw [h1]; decide, by rw [h1]; decide, ?_, hv⟩
  rw [hv]
  decide

/-- Witness for C4 at a 38-character prompt with no padding. -/
theorem C4_witness :
    validate_prompt_input "Transcribe the attached meeting audio.".toList =
      PromptCheck.pass :=
  (C4_validate_prompt_bounds
    "Transcribe the attached meeting audio.".toList).1.mpr
    ⟨by decide, by decide⟩

-- ============================================================================
-- C7: stop/save with MP3-first encoding and WAV fallback
-- ============================================================================

/-- C7: stopping a recording session returns `None` when no chunks were
captured or every persistence attempt failed; otherwise it first attempts
MP3 at 128 kbps / quality tier 2 ("good"), falls back to a WAV container at
the recorder's own sample rate when the encoder is unavailable or fails, and
the returned path is exactly the path of the file that was written. -/
theorem C7_stop_save_fallback (env : RecorderEnv) (st : RecorderState)
    (ts : String) (hrec : st.is_recording = true)
    (hpath : st.audio_path = some (recordingName ts))
    (hts : st.session_timestamp = some ts) :
    (st.audio_data = [] →
       (stop_recording env st).returned = none ∧
       (stop_recording env st).written = []) ∧
    (st.audio_data ≠ [] → env.lameAvailable = true → env.mp3EncodeOk = true →
       (stop_recording env st).returned = some (recordingName ts) ∧
       (stop_recording env st).attempts = [.mp3 128 2 st.sample_rate] ∧
       (stop_recording env st).written = [recordingName ts]) ∧
    (st.audio_data ≠ [] → env.lameAvailable = true → env.mp3EncodeOk = false →
       env.wavWriteOk = true →
       (stop_recording env st).returned = some (wavFallbackName ts) ∧
       (stop_recording env st).attempts =
         [.mp3 128 2 st.sample_rate, .wav st.sample_rate] ∧
       (stop_recording env st).written = [wavFallbackName ts]) ∧
    (st.audio_data ≠ [] → env.lameAvailable = false → env.wavWriteOk = true →
       (stop_recording env st).returned = some (wavFallbackName ts) ∧
       (stop_recording env st).attempts = [.wav st.sample_rate] ∧
       (stop_recording env st).written = [wavFallbackName ts]) ∧
    (st.audio_data ≠ [] →
       (env.lameAvailable = false ∨ env.mp3EncodeOk = false) →
       env.wavWriteOk = false →
       (stop_recording env st).returned = none ∧
       (stop_recording env st).written = []) ∧
    (∀ p, (stop_recording env st).returned = some p →
       (stop_recording env st).written = [p]) := by
  rcases env with ⟨la, mo, wo⟩
  cases hd : st.audio_data with
  | nil =>
    cases la <;> cases mo <;> cases wo <;>
      simp [stop_recording, save_recording, hrec, hd, hpath, hts]
  | cons ch rest =>
    cases la <;> cases mo <;> cases wo <;>
      simp [stop_recording, save_recording, hrec, hd, hpath, hts]

/-- A recorder mid-session with one captured chunk, used by witnesses. -/
def recActive : RecorderState :=
  ⟨true, [[1, 2]], 22050, 1, some "250101-120000",
   some (recordingName "250101-120000"),
   some (tempWavName "250101-120000"), true⟩

/-- Witness for C7: with the encoder present and succeeding, stop returns the
MP3 path and that file is the one written. -/
theorem C7_witness :
    recActive.is_recording = true ∧
    (stop_recording ⟨true, true, true⟩ recActive).returned =
      some (recordingName "250101-120000") ∧
    (stop_recording ⟨true, true, true⟩ recActive).written =
      [recordingName "250101-120000"] :=
  ⟨rfl,
   ((C7_stop_save_fallback ⟨true, true, true⟩ recActive "250101-120000" rfl rfl
      rfl).2.1 (by decide) rfl rfl).1,
   ((C7_stop_save_fallback ⟨true, true, true⟩ recActive "250101-120000" rfl rfl
      rfl).2.1 (by decide) rfl rfl).2.2⟩

-- ============================================================================
-- C8: derived file names share the capture session's timestamp
-- ============================================================================

/-- On a fully successful run, the pipeline ends `done` and writes exactly the
transcript file and then the sanitized memo file, both named from the capture
session timestamp when one exists, else from the fallback timestamp. -/
theorem process_thread_success_written (env : GenEnv) (m : Method) (size : Nat)
    (ext : String) (sess : Option String) (now : String) (t mt : List Char)
    (hu : env.uploadResult = Except.ok ())
    (htr : env.transcriptResult = Except.ok t)
    (htw : env.transcriptWrite = Except.ok ())
    (hm : env.memoResult = Except.ok mt)
    (hmw : env.memoWrite = Except.ok ()) :
    (process_thread env m size ext sess now).status = RunStatus.done ∧
    (process_thread env m size ext sess now).written =
      [(transcriptName (sess.getD now), t),
       (memoName (sess.getD now), pySanitize mt)] := by
  unfold process_thread
  cases hsel : select_method m size with
  | upload =>
    simp only [hu, htr]
    unfold afterTranscript
    simp only [htw, hm, hmw]
    constructor <;> simp
  | inl =>
    simp only [htr]
    unfold afterTranscript
    simp only [htw, hm, hmw]
    constructor <;> simp

/-- C8: derived names are a deterministic join of the session identifier with
a kind-specific suffix and extension (`.mp3` recording, `.txt` transcript,
`.md` memo); starting a capture fixes the session timestamp and the recording
path, and a successful run with that capture session writes its transcript
and memo under the same timestamp, while a run without a session uses the
fallback timestamp taken at persist time. -/
theorem C8_session_derived_names (ts now : String) (st : RecorderState)
    (hidle : st.is_recording = false) :
    ((start_recording ts st).2.audio_path = some (recordingName ts) ∧
     (start_recording ts st).2.session_timestamp = some ts) ∧
    (∀ env m size ext t mt,
       env.uploadResult = Except.ok () →
       env.transcriptResult = Except.ok t →
       env.transcriptWrite = Except.ok () →
       env.memoResult = Except.ok mt →
       env.memoWrite = Except.ok () →
       (process_thread env m size ext (some ts) now).written.map Prod.fst =
         [transcriptName ts, memoName ts] ∧
       (process_thread env m size ext none now).written.map Prod.fst =
         [transcriptName now, memoName now]) ∧
    recordingName ts = RECORDINGS_FOLDER ++ ts ++ "-recording" ++ ".mp3" ∧
    transcriptName ts = RECORDINGS_FOLDER ++ ts ++ "-transcript" ++ ".txt" ∧
    memoName ts = RECORDINGS_FOLDER ++ ts ++ "-memo" ++ ".md" := by
  refine ⟨by simp [start_recording, hidle], ?_, ?_, ?_, ?_⟩
  · intro env m size ext t mt hu htr htw hm hmw
    constructor
    · rw [(process_thread_success_written env m size ext (some ts) now t mt
        hu htr htw hm hmw).2]
      rfl
    · rw [(process_thread_success_written env m size ext none now t mt
        hu htr htw hm hmw).2]
      rfl
  · unfold recordingName
    rw [String.append_assoc (RECORDINGS_FOLDER ++ ts),
      show ("-recording" ++ ".mp3" : String) = "-recording.mp3" from rfl]
  · unfold transcriptName
    rw [String.append_assoc (RECORDINGS_FOLDER ++ ts),
      show ("-transcript" ++ ".txt" : String) = "-transcript.txt" from rfl]
  · unfold memoName
    rw [String.append_assoc (RECORDINGS_FOLDER ++ ts),
      show ("-memo" ++ ".md" : String) = "-memo.md" from rfl]

/-- Witness for C8: concrete session and fallback timestamps. -/
theorem C8_witness :
    (start_recording "250101-120000" (initRecorder false)).2.audio_path =
      some (recordingName "250101-120000") ∧
    (process_thread ⟨.ok (), .ok "t".toList, .ok (), .ok "m".toList, .ok ()⟩
        Method.auto 5000 ".mp3" (some "250101-120000")
        "250101-130000").written.map Prod.fst =
      [transcriptName "250101-120000", memoName "250101-120000"] :=
  ⟨(C8_session_derived_names "250101-120000" "250101-130000"
      (initRecorder false) rfl).1.1,
   ((C8_session_derived_names "250101-120000" "250101-130000"
      (initRecorder false) rfl).2.1
      ⟨.ok (), .ok "t".toList, .ok (), .ok "m".toList, .ok ()⟩ Method.auto
      5000 ".mp3" "t".toList "m".toList rfl rfl rfl rfl rfl).1⟩

-- ============================================================================
-- C5: failing transcript request
-- ============================================================================

/-- C5: when the remote transcript request raises, the run ends `failed`, no
file at all is written (in particular no memo file), the captured message is
logged verbatim, a failed usage summary carrying that message is emitted, the
transcript request was issued exactly once (no retry), the memo request never
happened, and the guard is released. -/
theorem C5_transcript_failure (env : GenEnv) (m : Method) (size : Nat)
    (ext : String) (sess : Option String) (now : String) (msg : String)
    (hu : env.uploadResult = Except.ok ())
    (ht : env.transcriptResult = Except.error msg) :
    (process_thread env m size ext sess now).status = RunStatus.failed ∧
    (process_thread env m size ext sess now).written = [] ∧
    LogEvent.errorOccurred msg ∈ (process_thread env m size ext sess now).log ∧
    LogEvent.usage "Failed Processing" false (some msg) ∈
      (process_thread env m size ext sess now).log ∧
    (process_thread env m size ext sess now).transcriptCalls = 1 ∧
    (process_thread env m size ext sess now).memoCalls = 0 ∧
    (process_thread env m size ext sess now).processing = false := by
  unfold process_thread
  cases hsel : select_method m size with
  | upload =>
    simp only [hu, ht]
    refine ⟨by simp, by simp, ?_, ?_, by simp, by simp, by simp⟩ <;>
      simp [failTail]
  | inl =>
    simp only [ht]
    refine ⟨by simp, by simp, ?_, ?_, by simp, by simp, by simp⟩ <;>
      simp [failTail]

/-- An environment whose transcript request raises. -/
def failEnv : GenEnv :=
  ⟨.ok (), .error "API rate limit exceeded", .ok (), .ok [], .ok ()⟩

/-- Witness for C5 at a concrete failing environment. -/
theorem C5_witness :
    (process_thread failEnv Method.auto 5000 ".mp3" none
      "250101-120000").status = RunStatus.failed ∧
    (process_thread failEnv Method.auto 5000 ".mp3" none
      "250101-120000").written = [] ∧
    LogEvent.errorOccurred "API rate limit exceeded" ∈
      (process_thread failEnv Method.auto 5000 ".mp3" none
        "250101-120000").log :=
  ⟨(C5_transcript_failure failEnv Method.auto 5000 ".mp3" none "250101-120000"
      "API rate limit exceeded" rfl rfl).1,
   (C5_transcript_failure failEnv Method.auto 5000 ".mp3" none "250101-120000"
      "API rate limit exceeded" rfl rfl).2.1,
   (C5_transcript_failure failEnv Method.auto 5000 ".mp3" none "250101-120000"
      "API rate limit exceeded" rfl rfl).2.2.1⟩

-- ============================================================================
-- C1: single-flight guard
-- ============================================================================

/-- C1 (amended): while the processing flag is set, triggering again is a
no-op that leaves the whole UI state — including the log — unchanged (the
guard at lines 946-947 is a bare `return`, so the rejection is silent, not
logged); the worker always clears the flag on reaching a terminal state; and
along every reachable trace at most one run is non-terminal at any time. -/
theorem C1_single_flight_guard (st : UiState) (tp mp : List Char) (m : Method)
    (h : st.processing = true) :
    process_audio st tp mp m = (st, TriggerOutcome.busy) ∧
    (∀ env m2 size ext sess now,
       (process_thread env m2 size ext sess now).processing = false) ∧
    (∀ s : FlightState, FlightReachable s → s.activeRuns ≤ 1) := by
  refine ⟨by simp [process_audio, h], process_thread_clears_flag, ?_⟩
  intro s hs
  have h2 := flight_activeRuns_eq hs
  rw [h2]
  split <;> omega

/-- A UI state with a run in flight and an empty log. -/
def busyUi : UiState := ⟨true, none, []⟩

/-- Counterexample for C1 as stated: at a concrete busy state, the second
trigger is rejected, but nothing is logged — the log is exactly unchanged,
refuting the claim that the rejected trigger is logged. -/
theorem C1_counterexample :
    (process_audio busyUi "Please transcribe this audio file.".toList
       "Write a short memo.".toList Method.auto).2 = TriggerOutcome.busy ∧
    (process_audio busyUi "Please transcribe this audio file.".toList
       "Write a short memo.".toList Method.auto).1.log = busyUi.log ∧
    ¬ ((process_audio busyUi "Please transcribe this audio file.".toList
       "Write a short memo.".toList Method.auto).1.log.length >
         busyUi.log.length) := by
  refine ⟨rfl, rfl, ?_⟩
  intro hgt
  exact absurd hgt (by decide)

/-- Witness for C1 at concrete inputs: the busy trigger is an exact no-op,
a finished run has the flag cleared, and a reachable in-flight state has one
active run. -/
theorem C1_witness :
    process_audio busyUi [] [] Method.auto = (busyUi, TriggerOutcome.busy) ∧
    (process_thread failEnv Method.auto 5000 ".mp3" none
      "250101-120000").processing = false ∧
    (⟨true, 1⟩ : FlightState).activeRuns ≤ 1 :=
  ⟨(C1_single_flight_guard busyUi [] [] Method.auto rfl).1,
   (C1_single_flight_guard busyUi [] [] Method.auto rfl).2.1 failEnv
     Method.auto 5000 ".mp3" none "250101-120000",
   (C1_single_flight_guard busyUi [] [] Method.auto rfl).2.2 ⟨true, 1⟩
     (FlightReachable.step FlightReachable.init (FlightStep.triggerIdle 0))⟩

-- ============================================================================
-- C6: memo sanitization — fence-freedom of the persisted memo
-- ============================================================================

/-- The number of leading backticks of a character list. -/
def leadTicks : List Char → Nat
  | [] => 0
  | c :: cs => if c = tick then leadTicks cs + 1 else 0

theorem leadTicks_cons_tick (cs : List Char) :
    leadTicks (tick :: cs) = leadTicks cs + 1 := by
  simp [leadTicks]

theorem leadTicks_cons_ne (c : Char) (cs : List Char) (h : ¬ c = tick) :
    leadTicks (c :: cs) = 0 := by
  simp [leadTicks, h]

/-- A bare fence is a prefix of `l` iff `l` starts with three backticks. -/
theorem fence_isPrefixOf_iff (l : List Char) :
    fence.isPrefixOf l = true ↔ ∃ rest, l = tick :: tick :: tick :: rest := by
  match l with
  | [] => constructor
          · intro h; exact absurd h (by decide)
          · rintro ⟨r, h⟩; cases h
  | [a] => constructor
           · intro h
             simp [fence, List.isPrefixOf] at h
           · rintro ⟨r, h⟩; cases h
  | [a, b] => constructor
              · intro h
                simp [fence, List.isPrefixOf] at h
              · rintro ⟨r, h⟩; cases h
  | a :: b :: c :: l3 =>
    simp only [fence, List.isPrefixOf, Bool.and_eq_true, beq_iff_eq]
    constructor
    · rintro ⟨h1, h2, h3, -⟩
      exact ⟨l3, by rw [← h1, ← h2, ← h3]⟩
    · rintro ⟨r, h⟩
      injection h with h1 h
      injection h with h2 h
      injection h with h3 h
      exact ⟨h1.symm, h2.symm, h3.symm, trivial⟩

/-- A list with at least two leading backticks starts with two backticks. -/
theorem leadTicks_ge_two (cs : List Char) (h : 2 ≤ leadTicks cs) :
    ∃ r, cs = tick :: tick :: r := by
  cases cs with
  | nil => simp [leadTicks] at h
  | cons a l1 =>
    by_cases ha : a = tick
    · subst ha
      cases l1 with
      | nil => rw [leadTicks_cons_tick] at h; simp [leadTicks] at h
      | cons b l2 =>
        by_cases hb : b = tick
        · subst hb; exact ⟨l2, rfl⟩
        · rw [leadTicks_cons_tick, leadTicks_cons_ne _ _ hb] at h; omega
    · rw [leadTicks_cons_ne _ _ ha] at h; omega

/-- Removing the leftmost fences reduces the count of leading backticks
modulo 3: the scan can never leave three leading backticks standing. -/
theorem leadTicks_pyReplaceAux :
    ∀ (fuel : Nat) (s : List Char), s.length ≤ fuel →
      leadTicks (pyReplaceAux fence [] fuel s) = leadTicks s % 3 := by
  intro fuel
  induction fuel with
  | zero =>
    intro s hs
    have hs0 : s = [] := List.eq_nil_of_length_eq_zero (Nat.le_zero.mp hs)
    subst hs0; rfl
  | succ n ih =>
    intro s hs
    cases s with
    | nil => rfl
    | cons c cs =>
      simp only [List.length_cons, Nat.add_le_add_iff_right] at hs
      by_cases hpre : fence.isPrefixOf (c :: cs) = true
      · obtain ⟨rest, hrest⟩ := (fence_isPrefixOf_iff _).mp hpre
        injection hrest with h1 h2
        subst h1; subst h2
        have heq : pyReplaceAux fence [] (n + 1)
            (tick :: tick :: tick :: rest) = pyReplaceAux fence [] n rest := by
          simp only [pyReplaceAux]
          rw [if_pos ⟨by decide, hpre⟩]
          rfl
        rw [heq, ih rest (by simp at hs; omega)]
        rw [leadTicks_cons_tick, leadTicks_cons_tick, leadTicks_cons_tick]
        omega
      · have heq : pyReplaceAux fence [] (n + 1) (c :: cs) =
            c :: pyReplaceAux fence [] n cs := by
          simp only [pyReplaceAux]
          rw [if_neg]
          rintro ⟨-, hp⟩; exact hpre hp
        rw [heq]
        by_cases hc : c = tick
        · subst hc
          have hlt : leadTicks cs ≤ 1 := by
            by_contra hgt
            push_neg at hgt
            obtain ⟨r, hr⟩ := leadTicks_ge_two cs (by omega)
            exact hpre ((fence_isPrefixOf_iff _).mpr ⟨r, by rw [hr]⟩)
          rw [leadTicks_cons_tick, leadTicks_cons_tick, ih cs hs]
          omega
        · rw [leadTicks_cons_ne _ _ hc, leadTicks_cons_ne _ _ hc]

/-- After removing every fence occurrence, no fence remains. -/
theorem containsSeq_fence_pyReplaceAux :
    ∀ (fuel : Nat) (s : List Char), s.length ≤ fuel →
      containsSeq fence (pyReplaceAux fence [] fuel s) = false := by
  intro fuel
  induction fuel with
  | zero =>
    intro s hs
    have hs0 : s = [] := List.eq_nil_of_length_eq_zero (Nat.le_zero.mp hs)
    subst hs0; rfl
  | succ n ih =>
    intro s hs
    cases s with
    | nil => rfl
    | cons c cs =>
      simp only [List.length_cons, Nat.add_le_add_iff_right] at hs
      by_cases hpre : fence.isPrefixOf (c :: cs) = true
      · obtain ⟨rest, hrest⟩ := (fence_isPrefixOf_iff _).mp hpre
        injection hrest with h1 h2
        subst h1; subst h2
        have heq : pyReplaceAux fence [] (n + 1)
            (tick :: tick :: tick :: rest) = pyReplaceAux fence [] n rest := by
          simp only [pyReplaceAux]
          rw [if_pos ⟨by decide, hpre⟩]
          rfl
        rw [heq]
        exact ih rest (by simp at hs; omega)
      · have heq : pyReplaceAux fence [] (n + 1) (c :: cs) =
            c :: pyReplaceAux fence [] n cs := by
          simp only [pyReplaceAux]
          rw [if_neg]
          rintro ⟨-, hp⟩; exact hpre hp
        rw [heq]
        simp only [containsSeq, Bool.or_eq_false_iff]
        refine ⟨?_, ih cs hs⟩
        by_contra hne
        rw [Bool.not_eq_false] at hne
        obtain ⟨rest, hr⟩ := (fence_isPrefixOf_iff _).mp hne
        injection hr with hc hout
        subst hc
        have hl2 : 2 ≤ leadTicks (pyReplaceAux fence [] n cs) := by
          rw [hout, leadTicks_cons_tick, leadTicks_cons_tick]; omega
        have hA := leadTicks_pyReplaceAux n cs hs
        have hcs : leadTicks cs ≤ 1 := by
          by_contra hgt
          push_neg at hgt
          obtain ⟨r, hrr⟩ := leadTicks_ge_two cs (by omega)
          exact hpre ((fence_isPrefixOf_iff _).mpr ⟨r, by rw [hrr]⟩)
        omega

/-- The final `.replace` pass leaves no fence in its output. -/
theorem containsSeq_fence_pyReplace (s : List Char) :
    containsSeq fence (pyReplace fence [] s) = false :=
  containsSeq_fence_pyReplaceAux s.length s le_rfl

/-- Characterization of `isPrefixOf` as an existential. -/
theorem isPrefixOf_iff_exists (q l : List Char) :
    q.isPrefixOf l = true ↔ ∃ b, q ++ b = l := by
  induction q generalizing l with
  | nil => simp [List.isPrefixOf]
  | cons a as ih =>
    cases l with
    | nil => simp [List.isPrefixOf]
    | cons b bs =>
      simp only [List.isPrefixOf, Bool.and_eq_true, beq_iff_eq, ih,
        List.cons_append, List.cons.injEq]
      constructor
      · rintro ⟨hab, t, ht⟩; exact ⟨t, hab, ht⟩
      · rintro ⟨t, hab, ht⟩; exact ⟨hab, t, ht⟩

/-- Characterization of `containsSeq` as an existential: some occurrence splits the list. -/
theorem containsSeq_iff (q l : List Char) :
    containsSeq q l = true ↔ ∃ a b, a ++ q ++ b = l := by
  induction l with
  | nil =>
    simp [containsSeq, List.isEmpty_iff, List.append_eq_nil]
  | cons c cs ih =>
    simp only [containsSeq, Bool.or_eq_true, ih, isPrefixOf_iff_exists]
    constructor
    · rintro (⟨b, hb⟩ | ⟨a, b, h⟩)
      · exact ⟨[], b, by simpa using hb⟩
      · exact ⟨c :: a, b, by simp [h]⟩
    · rintro ⟨a, b, h⟩
      cases a with
      | nil => exact Or.inl ⟨b, by simpa using h⟩
      | cons x a2 =>
        simp only [List.cons_append] at h
        injection h with h1 h2
        exact Or.inr ⟨a2, b, h2⟩

/-- An occurrence in the whitespace-dropped list is an occurrence in the
original list. -/
theorem containsSeq_of_dropWhile (p : Char → Bool) (q l : List Char)
    (h : containsSeq q (l.dropWhile p) = true) : containsSeq q l = true := by
  rw [containsSeq_iff] at h ⊢
  obtain ⟨a, b, hab⟩ := h
  refine ⟨l.takeWhile p ++ a, b, ?_⟩
  rw [List.append_assoc, List.append_assoc]
  rw [List.append_assoc] at hab
  rw [hab]
  exact List.takeWhile_append_dropWhile p l

/-- A fence occurrence in the reverse is one in the original (the fence is a
palindrome). -/
theorem containsSeq_fence_of_reverse (l : List Char)
    (h : containsSeq fence l.reverse = true) : containsSeq fence l = true := by
  rw [containsSeq_iff] at h ⊢
  obtain ⟨a, b, hab⟩ := h
  refine ⟨b.reverse, a.reverse, ?_⟩
  have h2 := congrArg List.reverse hab
  simp only [List.reverse_append, List.reverse_reverse, List.append_assoc,
    show fence.reverse = fence from by decide] at h2
  simpa using h2

/-- A fence occurrence in the stripped list is one in the original. -/
theorem containsSeq_fence_of_pyStrip (l : List Char)
    (h : containsSeq fence (pyStrip l) = true) : containsSeq fence l = true := by
  unfold pyStrip at h
  exact containsSeq_of_dropWhile _ _ _
    (containsSeq_fence_of_reverse _
      (containsSeq_of_dropWhile _ _ _
        (containsSeq_fence_of_reverse _ h)))

/-- The sanitized memo never contains a code fence. -/
theorem containsSeq_fence_pySanitize (s : List Char) :
    containsSeq fence (pySanitize s) = false := by
  by_contra hne
  rw [Bool.not_eq_false] at hne
  unfold pySanitize at hne
  have h1 := containsSeq_fence_of_pyStrip _ hne
  have h2 := containsSeq_fence_pyReplace
    (pyReplace fenceMd [] (pyReplace fenceMarkdown [] s))
  rw [h2] at h1
  exact absurd h1 (by decide)

/-- The first surviving character of a `dropWhile` fails the predicate. -/
theorem head?_dropWhile_false (p : Char → Bool) (l : List Char) :
    ∀ c, (l.dropWhile p).head? = some c → p c = false := by
  induction l with
  | nil => intro c h; simp at h
  | cons a t ih =>
    intro c h
    by_cases ha : p a = true
    · rw [List.dropWhile_cons, if_pos ha] at h
      exact ih c h
    · rw [List.dropWhile_cons, if_neg ha] at h
      simp only [List.head?_cons, Option.some.injEq] at h
      subst h
      revert ha; cases p a <;> simp

/-- The stripped list never starts with whitespace. -/
theorem pyStrip_head_not_space (l : List Char) (c : Char)
    (h : (pyStrip l).head? = some c) : pyIsSpace c = false := by
  unfold pyStrip at h
  rw [List.head?_reverse] at h
  have hne : ((l.dropWhile pyIsSpace).reverse.dropWhile pyIsSpace) ≠ [] := by
    intro h0; rw [h0] at h; simp at h
  have hgl : ((l.dropWhile pyIsSpace).reverse.dropWhile pyIsSpace).getLast? =
      (l.dropWhile pyIsSpace).reverse.getLast? := by
    conv_rhs => rw [← List.takeWhile_append_dropWhile pyIsSpace
      (l.dropWhile pyIsSpace).reverse]
    rw [List.getLast?_append_of_ne_nil _ hne]
  rw [hgl, List.getLast?_reverse] at h
  exact head?_dropWhile_false pyIsSpace l c h

/-- The stripped list never ends with whitespace. -/
theorem pyStrip_getLast_not_space (l : List Char) (c : Char)
    (h : (pyStrip l).getLast? = some c) : pyIsSpace c = false := by
  unfold pyStrip at h
  rw [List.getLast?_reverse] at h
  exact head?_dropWhile_false pyIsSpace _ c h

/-- C6 (amended): on a successful run the persisted memo content is exactly
the response text with the markers `\x7b3 backticks\x7dmarkdown`,
`\x7b3 backticks\x7dmd` and the bare 3-backtick fence removed by the
sequential replaces of line 1052 and surrounding whitespace trimmed; the
persisted content contains no residual 3-backtick fence marker anywhere, and
neither starts nor ends with whitespace.  (An html fence loses only its
backticks — the `html` tag text survives, see the counterexample.) -/
theorem C6_memo_sanitized (env : GenEnv) (m : Method) (size : Nat)
    (ext : String) (sess : Option String) (now : String) (t mt : List Char)
    (hu : env.uploadResult = Except.ok ())
    (htr : env.transcriptResult = Except.ok t)
    (htw : env.transcriptWrite = Except.ok ())
    (hm : env.memoResult = Except.ok mt)
    (hmw : env.memoWrite = Except.ok ()) :
    (process_thread env m size ext sess now).status = RunStatus.done ∧
    (process_thread env m size ext sess now).written =
      [(transcriptName (sess.getD now), t),
       (memoName (sess.getD now), pySanitize mt)] ∧
    containsSeq fence (pySanitize mt) = false ∧
    (∀ c, (pySanitize mt).head? = some c → pyIsSpace c = false) ∧
    (∀ c, (pySanitize mt).getLast? = some c → pyIsSpace c = false) :=
  ⟨(process_thread_success_written env m size ext sess now t mt
      hu htr htw hm hmw).1,
   (process_thread_success_written env m size ext sess now t mt
      hu htr htw hm hmw).2,
   containsSeq_fence_pySanitize mt,
   fun c h => pyStrip_head_not_space _ c h,
   fun c h => pyStrip_getLast_not_space _ c h⟩

/-- The sanitizer the claim's words describe, for comparison: it also strips
an html fence marker (fence followed by `html`) as a unit, before the final
bare-fence pass, so a fence's language tag never survives. -/
def specSanitize (s : List Char) : List Char :=
  pyStrip (pyReplace fence []
    (pyReplace (fence ++ "html".toList) []
      (pyReplace fenceMd [] (pyReplace fenceMarkdown [] s))))

/-- A memo response wrapped in an html code fence. -/
def htmlFenced : List Char :=
  fence ++ "html".toList ++ ('\n' :: 'X' :: '\n' :: []) ++ fence

/-- Counterexample for C6 as stated: the code strips only the backticks of an
html fence, leaving the residual tag text `html` in the persisted memo, so
the persisted content is NOT the response with the html fence marker
stripped (which would be just `X`). -/
theorem C6_counterexample :
    pySanitize htmlFenced ≠ specSanitize htmlFenced ∧
    pySanitize htmlFenced = 'h' :: 't' :: 'm' :: 'l' :: '\n' :: 'X' :: [] ∧
    specSanitize htmlFenced = ['X'] := by
  refine ⟨?_, by decide, by decide⟩
  decide

/-- A memo response wrapped in a markdown fence. -/
def memoRaw : List Char :=
  fenceMarkdown ++
    ('\n' :: 'O' :: 'K' :: ' ' :: 'm' :: 'e' :: 'm' :: 'o' :: '\n' :: []) ++
    fence

/-- Witness for C6 at a concrete successful run whose memo response is
wrapped in a markdown fence. -/
theorem C6_witness :
    (process_thread ⟨.ok (), .ok "t".toList, .ok (), .ok memoRaw, .ok ()⟩
        Method.inl 5000 ".mp3" none "250101-120000").written =
      [(transcriptName "250101-120000", "t".toList),
       (memoName "250101-120000", pySanitize memoRaw)] ∧
    containsSeq fence (pySanitize memoRaw) = false :=
  ⟨(C6_memo_sanitized ⟨.ok (), .ok "t".toList, .ok (), .ok memoRaw, .ok ()⟩
      Method.inl 5000 ".mp3" none "250101-120000" "t".toList memoRaw
      rfl rfl rfl rfl rfl).2.1,
   (C6_memo_sanitized ⟨.ok (), .ok "t".toList, .ok (), .ok memoRaw, .ok ()⟩
      Method.inl 5000 ".mp3" none "250101-120000" "t".toList memoRaw
      rfl rfl rfl rfl rfl).2.2.1⟩
